import Mathlib

/-!
Verification of the spotitui interactive session controller.

The definitions below are a shallow embedding of `src/app.rs` and
`src/spotify.rs`: pure data is translated to Lean structures, stateful
methods become explicit state-passing functions, and the network is
modelled by oracle functions supplied as arguments (one result per
endpoint, so that a theorem can quantify over every possible remote
behaviour).  Rust `Result<T>` becomes `Except String T`; a Rust panic
is modelled by returning `none` from an `Option`-valued function.
-/

namespace Spotitui

/-! ## Data model (spotify.rs structs) -/

structure Artist where
  id : String
  name : String
deriving DecidableEq, Repr

structure Image where
  height : Option Nat
  url : String
  width : Option Nat
deriving DecidableEq, Repr

structure Album where
  id : String
  name : String
  images : List Image
deriving DecidableEq, Repr

structure Track where
  id : String
  name : String
  artists : List Artist
  album : Album
  duration_ms : Nat
  uri : String
deriving DecidableEq, Repr

structure PlaylistTracks where
  total : Nat
deriving DecidableEq, Repr

structure Playlist where
  id : String
  name : String
  description : Option String
  tracks : PlaylistTracks
deriving DecidableEq, Repr

structure LikedTrack where
  added_at : String
  track : Track
deriving DecidableEq, Repr

structure PlaylistTrackItem where
  track : Track
deriving DecidableEq, Repr

structure Device where
  id : Option String
  name : String
  device_type : String
  is_active : Bool
deriving DecidableEq, Repr

structure CurrentlyPlaying where
  item : Option Track
  is_playing : Bool
  progress_ms : Option Nat
  device : Option Device
deriving DecidableEq, Repr

structure Queue where
  currently_playing : Option Track
  queue : List Track
deriving DecidableEq, Repr

/-- `TokenRefreshResponse` in spotify.rs: `refresh_token` is
`#[serde(default)] Option<String>`, i.e. `none` when the exchange
response omits the field. -/
structure TokenRefreshResponse where
  access_token : String
  refresh_token : Option String
deriving DecidableEq, Repr

/-! ## Token store and refresh (SpotifyClient::refresh_access_token) -/

/-- The two token cells of `SpotifyClient` (the `Arc<Mutex<Option<String>>>`
pair; the event loop is single-threaded so the mutexes serialize trivially
and the store is modelled as a plain record). -/
structure TokenStore where
  access_token : Option String
  refresh_token : Option String
deriving DecidableEq, Repr

/-- Outcome of the `POST https://accounts.spotify.com/api/token` exchange:
either the send itself fails, or a response arrives with a status code and
a body that may or may not deserialize as `TokenRefreshResponse`. -/
inductive RefreshHttp where
  | netErr (msg : String)
  | response (status : Nat) (body : Option TokenRefreshResponse)
deriving DecidableEq, Repr

/-- `reqwest::StatusCode::is_success`: 2xx. -/
def statusIsSuccess (s : Nat) : Bool :=
  200 ≤ s && s < 300

/-- `SpotifyClient::refresh_access_token` (spotify.rs:168-205), as a function
of the current store and the HTTP outcome.  Returns `none` for a panic:
the method begins with `refresh_token.clone().unwrap()`, which panics when
no refresh token is stored.  Otherwise it returns the new store together
with the `Result`:
* send failure or non-2xx status or undeserializable body: store unchanged,
  `Err`;
* success: the access token is replaced and the refresh-token cell is
  assigned `token_response.refresh_token` (so it becomes `none` when the
  response omitted the field). -/
def refresh_access_token (st : TokenStore) (http : RefreshHttp) :
    Option (TokenStore × Except String Unit) :=
  match st.refresh_token with
  | none => none
  | some _ =>
    match http with
    | .netErr m =>
        some (st, .error ("Failed to send token refresh request: " ++ m))
    | .response status body =>
        if ¬ statusIsSuccess status then
          some (st, .error ("Token refresh failed with status " ++ toString status))
        else
          match body with
          | none => some (st, .error "Failed to deserialize token response")
          | some tr =>
              some ({ access_token := some tr.access_token,
                      refresh_token := tr.refresh_token }, .ok ())

/-! ## Remote endpoints used by get_playlists / get_playlist_tracks -/

def playlistsUrl : String := "https://api.spotify.com/v1/me/playlists"

def savedTracksUrl : String := "https://api.spotify.com/v1/me/tracks?limit=50"

def playlistTracksUrl (playlist_id : String) : String :=
  "https://api.spotify.com/v1/playlists/" ++ playlist_id ++ "/tracks"

/-- A successfully received response body, already shaped: deserializing it
as a given serde type succeeds exactly when the constructor matches. -/
inductive ApiBody where
  | playlistsBody (items : List Playlist)
  | likedBody (items : List LikedTrack)
  | playlistTracksBody (items : List PlaylistTrackItem)
  | otherBody
deriving DecidableEq, Repr

/-- A GET oracle: what the remote service answers at each URL. -/
def Fetch : Type := String → Except String ApiBody

/-- The synthetic playlist prepended by `get_playlists` (spotify.rs:368-373). -/
def likedSongsPlaylist : Playlist :=
  { id := "liked", name := "Liked Songs", description := none,
    tracks := { total := 50 } }

/-- `SpotifyClient::get_playlists` (spotify.rs:352-376): requires a token,
GETs the playlists URL, deserializes, then inserts the synthetic
"Liked Songs" playlist at index 0 and returns the items. -/
def get_playlists (access_token : Option String) (fetch : Fetch) :
    Except String (List Playlist) :=
  match access_token with
  | none => .error "Not authenticated"
  | some _ =>
    match fetch playlistsUrl with
    | .error e => .error e
    | .ok (.playlistsBody items) => .ok (likedSongsPlaylist :: items)
    | .ok _ => .error "error decoding response body"

/-- `SpotifyClient::get_playlist_tracks` (spotify.rs:378-421): requires a
token; for the id `"liked"` it GETs the saved-tracks endpoint
(`/me/tracks?limit=50`) and maps each item to its track; for any other id
it GETs the playlist-tracks endpoint for that id. -/
def get_playlist_tracks (access_token : Option String) (fetch : Fetch)
    (playlist_id : String) : Except String (List Track) :=
  match access_token with
  | none => .error "Not authenticated"
  | some _ =>
    if playlist_id = "liked" then
      match fetch savedTracksUrl with
      | .error e => .error e
      | .ok (.likedBody items) => .ok (items.map (fun item => item.track))
      | .ok _ => .error "error decoding response body"
    else
      match fetch (playlistTracksUrl playlist_id) with
      | .error e => .error e
      | .ok (.playlistTracksBody items) => .ok (items.map (fun item => item.track))
      | .ok _ => .error "error decoding response body"

/-! ## Redirect-listener request parsing
(SpotifyClient::extract_code_from_request, spotify.rs:299-320)

Raw request text is modelled as `List Char`.  `str::find` becomes
`findSubstr`; the `Url::parse` + `query_pairs()` pipeline of the `url`
crate is modelled by: strip ASCII tab/CR/LF (the URL parser removes
them from its input), truncate the query at the first `#` (it would
start the fragment), split on `&` skipping empty pieces, split each
piece at the first `=`, and percent-decode keys and values with `+`
decoded as space (`application/x-www-form-urlencoded`). -/

/-- Index of the first occurrence of `pat` in `s` (Rust `str::find` with a
string pattern; the empty pattern matches at index 0). -/
def findSubstr (pat : List Char) : List Char → Option Nat
  | [] => if pat.isEmpty then some 0 else none
  | c :: rest =>
    if pat.isPrefixOf (c :: rest) then some 0
    else (findSubstr pat rest).map (· + 1)

def hexVal (c : Char) : Option Nat :=
  if '0' ≤ c ∧ c ≤ '9' then some (c.toNat - 48)
  else if 'a' ≤ c ∧ c ≤ 'f' then some (c.toNat - 87)
  else if 'A' ≤ c ∧ c ≤ 'F' then some (c.toNat - 55)
  else none

/-- Percent-decoding with `+` as space; an invalid escape is left as-is. -/
def percentDecode : List Char → List Char
  | [] => []
  | '%' :: h1 :: h2 :: rest =>
    match hexVal h1, hexVal h2 with
    | some a, some b => Char.ofNat (16 * a + b) :: percentDecode rest
    | _, _ => '%' :: percentDecode (h1 :: h2 :: rest)
  | c :: rest => (if c = '+' then ' ' else c) :: percentDecode rest

/-- Split on a separator character, keeping empty pieces. -/
def splitOnChar (sep : Char) : List Char → List (List Char)
  | [] => [[]]
  | c :: rest =>
    let r := splitOnChar sep rest
    if c = sep then [] :: r
    else
      match r with
      | [] => [[c]]
      | h :: t => (c :: h) :: t

/-- The key/value pairs of a raw query string, decoded
(`form_urlencoded::parse`: split on `&`, skip empty pieces, split each
piece at the first `=` — a piece with no `=` is a key with empty value). -/
def query_pairs (q : List Char) : List (List Char × List Char) :=
  ((splitOnChar '&' q).filter (fun p => ¬ p.isEmpty)).map (fun p =>
    let k := p.takeWhile (fun c => c ≠ '=')
    let v := (p.dropWhile (fun c => c ≠ '=')).drop 1
    (percentDecode k, percentDecode v))

/-- What the `url` crate leaves as the query component when
`http://127.0.0.1:8888/?{q}` is parsed: tab/CR/LF stripped, then
everything before the first `#` (which would begin the fragment). -/
def urlQueryOf (q : List Char) : List Char :=
  (q.filter (fun c => c ≠ '\t' ∧ c ≠ '\n' ∧ c ≠ '\r')).takeWhile (fun c => c ≠ '#')

/-- First `code` query parameter of a raw query string, decoded. -/
def lookupCode (q : List Char) : Option (List Char) :=
  ((query_pairs (urlQueryOf q)).find? (fun kv => kv.1 = "code".toList)).map
    (fun kv => kv.2)

/-- One iteration of the pattern loop in `extract_code_from_request`: if
`pat` occurs, take the text after its first occurrence up to the next
space as the query string and look up its `code` parameter. -/
def findCodeWithPattern (pat request : List Char) : Option (List Char) :=
  match findSubstr pat request with
  | none => none
  | some i =>
    let query_part := request.drop (i + pat.length)
    match findSubstr [' '] query_part with
    | none => none
    | some j => lookupCode (query_part.take j)

/-- `SpotifyClient::extract_code_from_request` (spotify.rs:299-320): try the
pattern `"GET /callback?"` first, then `"GET /?"`; each is searched in the
whole request text. -/
def extract_code_from_request (request : List Char) : Option (List Char) :=
  match findCodeWithPattern ("GET /callback?".toList) request with
  | some code => some code
  | none => findCodeWithPattern ("GET /?".toList) request

/-- The static confirmation response written by
`SpotifyClient::send_async_response` (spotify.rs:322-326). -/
def send_async_response_text : String :=
  "HTTP/1.1 200 OK\r\nContent-Type: text/html\r\nConnection: close\r\n\r\n<html><body><h1>Authentication successful!</h1><p>You can close this window and return to the terminal.</p></body></html>"

/-- Handling of one received request inside the accept loop of
`SpotifyClient::start_callback_server` (spotify.rs:264-292): if a code is
extracted, the 200 OK response is written to the stream and the code is
returned; otherwise nothing is written and the loop keeps listening. -/
def callback_server_step (request : List Char) : Option (List Char × String) :=
  (extract_code_from_request request).map (fun code => (code, send_async_response_text))

/-! ## Application state (app.rs) -/

inductive FocusedPane where
  | Playlists
  | Tracks
  | SearchInput
deriving DecidableEq, Repr

inductive AppState where
  | Authenticating
  | Loading
  | Ready
  | Error (msg : String)
deriving DecidableEq, Repr

/-- The key codes the handler distinguishes; every other crossterm code
lands in the wildcard arms and is represented by `other`. -/
inductive KeyCode where
  | char (c : Char)
  | enter
  | esc
  | tab
  | up
  | down
  | backspace
  | other
deriving DecidableEq, Repr

structure KeyEvent where
  code : KeyCode
  ctrl : Bool
deriving DecidableEq, Repr

/-- Remote calls issued while handling an event (observable side effects). -/
inductive Effect where
  | playedTrack (uri : String)
  | queuedTrack (uri : String)
  | fetchedQueue
  | fetchedPlaylistTracks (id : String)
  | pausedPlayback
  | resumedPlayback
  | wentNextTrack
  | wentPreviousTrack
deriving DecidableEq, Repr

/-- Oracle for the environment: the current instant and the result each
remote call would return if issued now. -/
structure Env where
  now : Nat
  playlistTracks : String → Except String (List Track)
  play : String → Except String Unit
  addQueue : String → Except String Unit
  getQueue : Except String (Option Queue)
  getCurrentlyPlaying : Except String (Option CurrentlyPlaying)
  search : String → Except String (List Track)
  refresh : Except String Unit
  pauseRes : Except String Unit
  resumeRes : Except String Unit
  nextRes : Except String Unit
  prevRes : Except String Unit

/-- The `App` struct (app.rs:29-49).  A ratatui `ListState` is represented
by its `selected()` value.  `Instant`s are naturals (milliseconds). -/
structure App where
  playlists : List Playlist
  current_tracks : List Track
  search_results : List Track
  currently_playing : Option CurrentlyPlaying
  queue : Option Queue
  playlists_state : Option Nat
  tracks_state : Option Nat
  search_state : Option Nat
  focused_pane : FocusedPane
  show_search : Bool
  search_input : String
  show_playback_controls : Bool
  playback_controls_state : Option Nat
  show_help : Bool
  state : AppState
  should_quit : Bool
  last_search_time : Option Nat
  search_debounce_ms : Nat
deriving DecidableEq, Repr

/-- `App::new` (app.rs:52-88): empty lists, every list selection set to
`Some(0)`, search hidden, 500 ms debounce. -/
def app_new : App :=
  { playlists := []
    current_tracks := []
    search_results := []
    currently_playing := none
    queue := none
    playlists_state := some 0
    tracks_state := some 0
    search_state := some 0
    focused_pane := .Playlists
    show_search := false
    search_input := ""
    show_playback_controls := false
    playback_controls_state := some 0
    show_help := false
    state := .Authenticating
    should_quit := false
    last_search_time := none
    search_debounce_ms := 500 }

/-- `App::get_display_tracks` (app.rs:482-488). -/
def get_display_tracks (a : App) : List Track :=
  if a.show_search then a.search_results else a.current_tracks

/-- `App::update_currently_playing` (app.rs:490-494): errors ignored. -/
def update_currently_playing (a : App) (env : Env) : App :=
  match env.getCurrentlyPlaying with
  | .ok cp => { a with currently_playing := cp }
  | .error _ => a

/-- `App::update_queue` (app.rs:496-500): errors ignored. -/
def update_queue (a : App) (env : Env) : App :=
  match env.getQueue with
  | .ok q => { a with queue := q }
  | .error _ => a

/-- `App::load_playlist_tracks` (app.rs:175-182): in-bounds index fetches
that playlist's tracks (`?` propagates a fetch error) and resets the
tracks selection to `Some(0)`; out-of-bounds index is a no-op. -/
def load_playlist_tracks (a : App) (env : Env) (playlist_index : Nat) :
    App × List Effect × Except String Unit :=
  if h : playlist_index < a.playlists.length then
    let playlist_id := (a.playlists.get ⟨playlist_index, h⟩).id
    match env.playlistTracks playlist_id with
    | .error e => (a, [.fetchedPlaylistTracks playlist_id], .error e)
    | .ok tracks =>
        ({ a with current_tracks := tracks, tracks_state := some 0 },
         [.fetchedPlaylistTracks playlist_id], .ok ())
  else (a, [], .ok ())

/-- `App::add_current_track_to_queue` (app.rs:595-623). -/
def add_current_track_to_queue (a : App) (env : Env) :
    App × List Effect × Except String Unit :=
  let tracks := get_display_tracks a
  let selected_index := if a.show_search then a.search_state else a.tracks_state
  match selected_index with
  | none => (a, [], .ok ())
  | some index =>
    if h : index < tracks.length then
      let track := tracks.get ⟨index, h⟩
      match env.addQueue track.uri with
      | .ok _ => (update_queue a env, [.queuedTrack track.uri, .fetchedQueue], .ok ())
      | .error e => ({ a with state := .Error e }, [.queuedTrack track.uri], .error e)
    else (a, [], .ok ())

/-- The `if let Err(e) = self.add_current_track_to_queue()` pattern at both
call sites (app.rs:231-236 and 455-460): the error is swallowed after
setting the `Error` phase. -/
def add_current_track_to_queue_checked (a : App) (env : Env) : App × List Effect :=
  match add_current_track_to_queue a env with
  | (a', effs, .ok _) => (a', effs)
  | (a', effs, .error e) => ({ a' with state := .Error e }, effs)

/-- The `if let Err(e) = self.spotify_client.play_track(&track.uri)` pattern:
issue the play call, set the `Error` phase on failure. -/
def play_track_at (a : App) (env : Env) (uri : String) : App × List Effect :=
  match env.play uri with
  | .ok _ => (a, [.playedTrack uri])
  | .error e => ({ a with state := .Error e }, [.playedTrack uri])

/-- `App::handle_playback_controls_key` (app.rs:518-593). -/
def handle_playback_controls_key (a : App) (k : KeyEvent) (env : Env) :
    App × List Effect :=
  match k.code with
  | .esc => ({ a with show_playback_controls := false }, [])
  | .up =>
      let selected := a.playback_controls_state.getD 0
      (if selected > 0 then { a with playback_controls_state := some (selected - 1) }
       else a, [])
  | .down =>
      let selected := a.playback_controls_state.getD 0
      (if selected < 3 then { a with playback_controls_state := some (selected + 1) }
       else a, [])
  | .char c =>
      if c = 'p' ∧ k.ctrl then
        let selected := a.playback_controls_state.getD 0
        (if selected > 0 then { a with playback_controls_state := some (selected - 1) }
         else a, [])
      else if c = 'n' ∧ k.ctrl then
        let selected := a.playback_controls_state.getD 0
        (if selected < 3 then { a with playback_controls_state := some (selected + 1) }
         else a, [])
      else (a, [])
  | .enter =>
      match a.playback_controls_state with
      | some 0 =>
          match a.currently_playing with
          | some cp =>
              if cp.is_playing then
                match env.pauseRes with
                | .ok _ => (a, [.pausedPlayback])
                | .error e => ({ a with state := .Error e }, [.pausedPlayback])
              else
                match env.resumeRes with
                | .ok _ => (a, [.resumedPlayback])
                | .error e => ({ a with state := .Error e }, [.resumedPlayback])
          | none =>
              match env.resumeRes with
              | .ok _ => (a, [.resumedPlayback])
              | .error e => ({ a with state := .Error e }, [.resumedPlayback])
      | some 1 =>
          (match env.prevRes with
           | .ok _ => (a, [.wentPreviousTrack])
           | .error e => ({ a with state := .Error e }, [.wentPreviousTrack]))
      | some 2 =>
          (match env.nextRes with
           | .ok _ => (a, [.wentNextTrack])
           | .error e => ({ a with state := .Error e }, [.wentNextTrack]))
      | some 3 => ({ a with show_playback_controls := false }, [])
      | _ => (a, [])
  | _ => (a, [])

/-- The `self.show_search` branch of `handle_key_event` (app.rs:198-275). -/
def handle_search_mode_key (a : App) (k : KeyEvent) (env : Env) :
    App × List Effect :=
  match k.code with
  | .esc =>
      ({ a with show_search := false, search_input := "", search_results := [],
                focused_pane := .Playlists, last_search_time := none }, [])
  | .enter =>
      (if ¬ a.search_results.isEmpty then { a with focused_pane := .Tracks } else a, [])
  | .char c =>
      if c = 'p' ∧ k.ctrl then
        (if a.focused_pane = .Tracks ∧ ¬ a.search_results.isEmpty then
           let selected := a.search_state.getD 0
           if selected > 0 then { a with search_state := some (selected - 1) } else a
         else a, [])
      else if c = 'n' ∧ k.ctrl then
        (if a.focused_pane = .Tracks ∧ ¬ a.search_results.isEmpty then
           let selected := a.search_state.getD 0
           if selected < a.search_results.length - 1 then
             { a with search_state := some (selected + 1) }
           else a
         else a, [])
      else if c = '+' then
        if a.focused_pane = .Tracks then add_current_track_to_queue_checked a env
        else (a, [])
      else
        (if a.focused_pane = .SearchInput then
           { a with search_input := a.search_input.push c, last_search_time := some env.now }
         else a, [])
  | .backspace =>
      (if a.focused_pane = .SearchInput then
         let si := a.search_input.dropRight 1
         if si.isEmpty then
           { a with search_input := si, search_results := [], last_search_time := none }
         else { a with search_input := si, last_search_time := some env.now }
       else a, [])
  | .up =>
      (if a.focused_pane = .Tracks ∧ ¬ a.search_results.isEmpty then
         let selected := a.search_state.getD 0
         if selected > 0 then { a with search_state := some (selected - 1) } else a
       else a, [])
  | .down =>
      (if a.focused_pane = .Tracks ∧ ¬ a.search_results.isEmpty then
         let selected := a.search_state.getD 0
         if selected < a.search_results.length - 1 then
           { a with search_state := some (selected + 1) }
         else a
       else a, [])
  | _ => (a, [])

/-- The `KeyCode::Up` / `Ctrl+P` arm of the non-overlay branch
(app.rs:294-324 and 363-392). -/
def main_nav_up (a : App) (env : Env) : App × List Effect × Except String Unit :=
  match a.focused_pane with
  | .Playlists =>
      if ¬ a.playlists.isEmpty then
        let selected := a.playlists_state.getD 0
        if selected > 0 then
          load_playlist_tracks { a with playlists_state := some (selected - 1) } env
            (selected - 1)
        else (a, [], .ok ())
      else (a, [], .ok ())
  | .Tracks =>
      if a.show_search ∧ ¬ a.search_results.isEmpty then
        (match a.search_state with
         | some selected =>
             if selected > 0 then ({ a with search_state := some (selected - 1) }, [], .ok ())
             else (a, [], .ok ())
         | none => (a, [], .ok ()))
      else if ¬ a.current_tracks.isEmpty then
        let selected := a.tracks_state.getD 0
        (if selected > 0 then { a with tracks_state := some (selected - 1) } else a,
         [], .ok ())
      else (a, [], .ok ())
  | .SearchInput => (a, [], .ok ())

/-- The `KeyCode::Down` / `Ctrl+N` arm of the non-overlay branch
(app.rs:325-355 and 393-422). -/
def main_nav_down (a : App) (env : Env) : App × List Effect × Except String Unit :=
  match a.focused_pane with
  | .Playlists =>
      if ¬ a.playlists.isEmpty then
        let selected := a.playlists_state.getD 0
        if selected < a.playlists.length - 1 then
          load_playlist_tracks { a with playlists_state := some (selected + 1) } env
            (selected + 1)
        else (a, [], .ok ())
      else (a, [], .ok ())
  | .Tracks =>
      if a.show_search ∧ ¬ a.search_results.isEmpty then
        (match a.search_state with
         | some selected =>
             if selected < a.search_results.length - 1 then
               ({ a with search_state := some (selected + 1) }, [], .ok ())
             else (a, [], .ok ())
         | none => (a, [], .ok ()))
      else if ¬ a.current_tracks.isEmpty then
        let selected := a.tracks_state.getD 0
        (if selected < a.current_tracks.length - 1 then
           { a with tracks_state := some (selected + 1) }
         else a, [], .ok ())
      else (a, [], .ok ())
  | .SearchInput => (a, [], .ok ())

/-- The `KeyCode::Enter` arm of the non-overlay branch (app.rs:423-454). -/
def main_enter (a : App) (env : Env) : App × List Effect × Except String Unit :=
  match a.focused_pane with
  | .Tracks =>
      if a.show_search then
        (match a.search_state with
         | some selected =>
             if h : selected < a.search_results.length then
               let (a', effs) := play_track_at a env (a.search_results.get ⟨selected, h⟩).uri
               (a', effs, .ok ())
             else (a, [], .ok ())
         | none => (a, [], .ok ()))
      else
        (match a.tracks_state with
         | some selected =>
             if h : selected < a.current_tracks.length then
               let (a', effs) := play_track_at a env (a.current_tracks.get ⟨selected, h⟩).uri
               (a', effs, .ok ())
             else (a, [], .ok ())
         | none => (a, [], .ok ()))
  | .SearchInput =>
      (if ¬ a.search_results.isEmpty then
         { a with focused_pane := .Tracks, search_state := some 0 }
       else a, [], .ok ())
  | .Playlists => (a, [], .ok ())

/-- The non-overlay (`else`) branch of `handle_key_event` (app.rs:276-464). -/
def handle_main_key (a : App) (k : KeyEvent) (env : Env) :
    App × List Effect × Except String Unit :=
  match k.code with
  | .char c =>
      if c = 'q' then ({ a with should_quit := true }, [], .ok ())
      else if c = 's' then
        ({ a with show_search := true, search_input := "", search_results := [],
                  focused_pane := .SearchInput }, [], .ok ())
      else if c = ' ' then
        ({ a with show_playback_controls := true, playback_controls_state := some 0 },
         [], .ok ())
      else if c = '?' then ({ a with show_help := true }, [], .ok ())
      else if c = 'p' ∧ k.ctrl then main_nav_up a env
      else if c = 'n' ∧ k.ctrl then main_nav_down a env
      else if c = '+' then
        (if a.focused_pane = .Tracks then
           let (a', effs) := add_current_track_to_queue_checked a env
           (a', effs, .ok ())
         else (a, [], .ok ()))
      else (a, [], .ok ())
  | .tab =>
      ({ a with focused_pane :=
           match a.focused_pane with
           | .Playlists => .Tracks
           | .Tracks => if a.show_search then .SearchInput else .Playlists
           | .SearchInput => .Playlists }, [], .ok ())
  | .up => main_nav_up a env
  | .down => main_nav_down a env
  | .enter => main_enter a env
  | _ => (a, [], .ok ())

/-- The trailing block of `handle_key_event` (app.rs:466-477), reached on
the non-early-return paths: with the search overlay visible, the tracks
pane focused and `Enter` pressed, play the selected search result. -/
def post_search_enter (a : App) (k : KeyEvent) (env : Env) : App × List Effect :=
  if a.show_search ∧ a.focused_pane = .Tracks ∧ k.code = .enter then
    match a.search_state with
    | some selected =>
        if h : selected < a.search_results.length then
          play_track_at a env (a.search_results.get ⟨selected, h⟩).uri
        else (a, [])
    | none => (a, [])
  else (a, [])

/-- `App::handle_key_event` (app.rs:184-480). -/
def handle_key_event (a : App) (k : KeyEvent) (env : Env) :
    App × List Effect × Except String Unit :=
  match a.state with
  | .Error _ => ({ a with state := .Ready }, [], .ok ())
  | _ =>
    if a.show_help then
      (if k.code = .esc ∨ k.code = .char '?' then { a with show_help := false } else a,
       [], .ok ())
    else if a.show_playback_controls then
      let (a', effs) := handle_playback_controls_key a k env
      (a', effs, .ok ())
    else if a.show_search then
      let (a1, e1) := handle_search_mode_key a k env
      let (a2, e2) := post_search_enter a1 k env
      (a2, e1 ++ e2, .ok ())
    else
      match handle_main_key a k env with
      | (a1, e1, .error e) => (a1, e1, .error e)
      | (a1, e1, .ok _) =>
          let (a2, e2) := post_search_enter a1 k env
          (a2, e1 ++ e2, .ok ())

/-- `App::check_pending_search` (app.rs:502-515).  The second component is
the search request dispatched this tick, if any. -/
def check_pending_search (a : App) (env : Env) : App × Option String :=
  match a.last_search_time with
  | none => (a, none)
  | some t =>
    if env.now - t ≥ a.search_debounce_ms then
      let a1 := { a with last_search_time := none }
      if ¬ a.search_input.isEmpty then
        match env.search a.search_input with
        | .ok results =>
            ({ a1 with search_results := results, search_state := none },
             some a.search_input)
        | .error _ => (a1, some a.search_input)
      else (a1, none)
    else (a, none)

/-- `App::refresh_access_token` (app.rs:144-155): on success the phase
becomes `Ready`; on failure the phase becomes `Error("Authentication
failed: …")` and the error is returned to the caller. -/
def app_refresh_access_token (a : App) (r : Except String Unit) :
    App × Except String Unit :=
  match r with
  | .ok _ => ({ a with state := .Ready }, .ok ())
  | .error e => ({ a with state := .Error ("Authentication failed: " ++ e) }, .error e)

/-- How one iteration of the `loop` in `App::run` ends. -/
inductive TickOutcome where
  | halted (a : App)
  | fatal (a : App) (msg : String)
  | next (a : App)
deriving DecidableEq, Repr

/-- The tail of a tick after the timer checks: evaluate the debounced
search, then poll for at most one key event; a `?`-propagated error from
`handle_key_event` ends the loop. -/
def run_tick_rest (a : App) (env : Env) (key : Option KeyEvent) : TickOutcome :=
  let a' := (check_pending_search a env).1
  match key with
  | none => .next a'
  | some k =>
    match handle_key_event a' k env with
    | (a'', _, .error e) => .fatal a'' e
    | (a'', _, .ok _) => .next a''

/-- One iteration of the `loop` in `App::run` (app.rs:97-125): quit check,
2-second poll (errors ignored), 600-second token refresh whose error is
propagated by `?` out of `run` (ending the loop), debounce check, and key
dispatch.  `elapsed2` / `elapsed600` say whether the respective timer
predicates held this tick. -/
def run_tick (a : App) (env : Env) (elapsed2 elapsed600 : Bool)
    (key : Option KeyEvent) : TickOutcome :=
  if a.should_quit then .halted a
  else
    let a1 := if elapsed2 then update_queue (update_currently_playing a env) env else a
    if elapsed600 then
      match app_refresh_access_token a1 env.refresh with
      | (a2, .error e) => .fatal a2 e
      | (a2, .ok _) => run_tick_rest a2 env key
    else run_tick_rest a1 env key

/-- Iterated key handling (the states reached by a sequence of key events,
all within one environment). -/
def applyKeys (env : Env) (a : App) : List KeyEvent → App
  | [] => a
  | k :: ks => applyKeys env (handle_key_event a k env).1 ks

/-- Length of the list that is currently authoritative for the focused
pane (spec §4.6): the playlists list, the search results while the search
overlay is shown, else the active playlist's tracks.  No list is
authoritative while the search input is focused. -/
def authLen (a : App) : Nat :=
  match a.focused_pane with
  | .Playlists => a.playlists.length
  | .Tracks => if a.show_search then a.search_results.length else a.current_tracks.length
  | .SearchInput => 0

/-- Selection cursor of the currently authoritative list. -/
def authSel (a : App) : Option Nat :=
  match a.focused_pane with
  | .Playlists => a.playlists_state
  | .Tracks => if a.show_search then a.search_state else a.tracks_state
  | .SearchInput => none

/-- The up/down navigation key events: arrow keys and Ctrl+P / Ctrl+N. -/
def IsNavKey (k : KeyEvent) : Prop :=
  k.code = .up ∨ k.code = .down ∨
    ((k.code = .char 'p' ∨ k.code = .char 'n') ∧ k.ctrl = true)

/-- The upward-moving navigation keys. -/
def IsUpKey (k : KeyEvent) : Prop :=
  k.code = .up ∨ (k.code = .char 'p' ∧ k.ctrl = true)

/-- The downward-moving navigation keys. -/
def IsDownKey (k : KeyEvent) : Prop :=
  k.code = .down ∨ (k.code = .char 'n' ∧ k.ctrl = true)

/-- A selection is in bounds for a list length when it is unset or its
index is strictly below the length. -/
def selInBounds (len : Nat) : Option Nat → Prop
  | none => True
  | some i => i < len

/-! ## Concrete fixtures used by witnesses and counterexamples -/

/-- An environment in which every remote call succeeds trivially. -/
def envTest : Env :=
  { now := 1000
    playlistTracks := fun _ => .ok []
    play := fun _ => .ok ()
    addQueue := fun _ => .ok ()
    getQueue := .ok none
    getCurrentlyPlaying := .ok none
    search := fun _ => .ok []
    refresh := .ok ()
    pauseRes := .ok ()
    resumeRes := .ok ()
    nextRes := .ok ()
    prevRes := .ok () }

/-- Same environment but the token refresh fails. -/
def envRefreshFail : Env := { envTest with refresh := .error "boom" }

def trackA : Track :=
  { id := "t1", name := "Song A", artists := [], album := { id := "al", name := "Album", images := [] },
    duration_ms := 1000, uri := "spotify:track:1" }

/-- The app right after startup once authentication has succeeded. -/
def app_ready : App := { app_new with state := .Ready }

def playlistA : Playlist :=
  { id := "p1", name := "Playlist A", description := none, tracks := { total := 1 } }

def playlistB : Playlist :=
  { id := "p2", name := "Playlist B", description := none, tracks := { total := 1 } }

def playlistC : Playlist :=
  { id := "p3", name := "Playlist C", description := none, tracks := { total := 1 } }

/-- A ready state with three playlists and the playlist pane focused. -/
def appNav : App := { app_ready with playlists := [playlistA, playlistB, playlistC] }

instance selInBounds.decidable (len : Nat) :
    (sel : Option Nat) → Decidable (selInBounds len sel)
  | none => isTrue trivial
  | some i => Nat.decLt i len

instance IsNavKey.decidable (k : KeyEvent) : Decidable (IsNavKey k) := by
  unfold IsNavKey
  infer_instance

/-- Whether a phase is the error phase. -/
def AppState.isError : AppState → Bool
  | .Error _ => true
  | _ => false

/-- A reachable search-mode state: overlay shown, input focused, one
result, and no result selected (the state a completed search leaves,
since a successful search clears the selection). -/
def appSearchEnter : App :=
  { app_new with state := .Ready, show_search := true, focused_pane := .SearchInput,
                 search_results := [trackA], search_state := none, search_input := "a" }

/-- A state with the search overlay visible and the tracks pane focused. -/
def appTabSearch : App :=
  { app_new with state := .Ready, show_search := true, focused_pane := .Tracks }

/-- A search-mode state with a pending debounce timestamp (armed at
instant 0) and query `"radio"`. -/
def appPendingSearch : App :=
  { app_new with state := .Ready, show_search := true, focused_pane := .SearchInput,
                 search_input := "radio", last_search_time := some 0 }

/-- The data-model invariant of spec §3: a pending debounce timestamp
exists only while the query is non-empty (and, in this implementation,
only while the search overlay is shown, which is what makes the invariant
inductive). -/
def PendingInv (a : App) : Prop :=
  a.last_search_time ≠ none → (a.search_input.isEmpty = false ∧ a.show_search = true)

/-- The eight fields `authLen`/`authSel` read. -/
def NavFrame (a b : App) : Prop :=
  b.focused_pane = a.focused_pane ∧ b.show_search = a.show_search ∧
    b.playlists = a.playlists ∧ b.current_tracks = a.current_tracks ∧
    b.search_results = a.search_results ∧ b.playlists_state = a.playlists_state ∧
    b.tracks_state = a.tracks_state ∧ b.search_state = a.search_state

/-! ## Claim C1 — token refresh postcondition -/

/-- C1.  The claim states that when a successful refresh response omits the
refresh token, the previously stored refresh token is retained.  The code
does the opposite: evaluating `refresh_access_token` on a store holding
refresh token `"tokR"` and a 200 response whose body deserializes with
`refresh_token: None` yields a store whose refresh-token cell has been
cleared to `none` (the access token is replaced as claimed, and — also as
claimed — a failed refresh leaves both cells untouched, but the
retained-on-omission half of the postcondition is violated). -/
theorem C1_refresh_clears_omitted_refresh_token :
    refresh_access_token
        { access_token := some "tokA", refresh_token := some "tokR" }
        (.response 200 (some { access_token := "tokB", refresh_token := none })) =
      some ({ access_token := some "tokB", refresh_token := none }, .ok ()) := by
  rfl

/-! ## Claim C5 — totality of the refresh operation -/

/-- C5 counterexample.  Invoking the refresh operation on a store with no
refresh token does not return an `AuthError`: it panics
(`refresh_token.clone().unwrap()` on `None`), modelled as the `none`
outcome, whatever the network would have answered. -/
theorem C5_counterexample :
    refresh_access_token { access_token := some "tokA", refresh_token := none }
        (.response 200 (some { access_token := "tokB", refresh_token := none })) =
      none := by
  rfl

/-- C5 (amended).  Under the spec's precondition that a refresh token is
present, the refresh operation is total: for every store state and every
network outcome it returns a result (new store plus `()` or an error) and
never panics.  Without the precondition the operation panics. -/
theorem C5_refresh_total_with_refresh_token (st : TokenStore) (http : RefreshHttp)
    (rt : String) (h : st.refresh_token = some rt) :
    (refresh_access_token st http).isSome := by
  unfold refresh_access_token
  rw [h]
  cases http with
  | netErr m => rfl
  | response status body =>
    by_cases hs : statusIsSuccess status
    · cases body <;> simp [hs]
    · simp [hs]

/-- C5 witness. -/
theorem C5_witness :
    ({ access_token := some "a", refresh_token := some "r" } : TokenStore).refresh_token
        = some "r" ∧
      (refresh_access_token { access_token := some "a", refresh_token := some "r" }
        (.netErr "x")).isSome :=
  ⟨rfl, C5_refresh_total_with_refresh_token _ (.netErr "x") "r" rfl⟩

/-! ## Claim C8 — error dismissal is a pure phase transition -/

/-- C8.  For every state whose phase is `Error(msg)` and every key event,
handling the key yields exactly the same state with phase `Ready`, no
effects, and no propagated error: selections, focus, overlay flags, query
text and results are untouched, and no remote call is issued (the error
check precedes all other dispatch). -/
theorem C8_error_dismissal (a : App) (msg : String) (k : KeyEvent) (env : Env)
    (h : a.state = .Error msg) :
    handle_key_event a k env = ({ a with state := .Ready }, [], .ok ()) := by
  unfold handle_key_event
  rw [h]

/-- C8 witness. -/
theorem C8_witness :
    ({ app_new with state := .Error "x" } : App).state = .Error "x" ∧
      handle_key_event { app_new with state := .Error "x" } ⟨.char 'q', false⟩ envTest =
        ({ { app_new with state := .Error "x" } with state := .Ready }, [], .ok ()) :=
  ⟨rfl, C8_error_dismissal _ "x" ⟨.char 'q', false⟩ envTest rfl⟩

/-! ## Claim C10 — synthetic Liked Songs playlist -/

/-- C10.  Every successful `get_playlists` result starts with the synthetic
"Liked Songs" playlist (id `"liked"`), prepended to whatever the remote
service returned; and `get_playlist_tracks "liked"` reads the saved-tracks
endpoint (`/me/tracks?limit=50`) — its result depends only on what the
remote answers at that URL, never on any playlist-tracks URL. -/
theorem C10_liked_songs :
    (∀ tok f l, get_playlists tok f = .ok l → l.head? = some likedSongsPlaylist) ∧
    (∀ tok (f : Fetch) items, f playlistsUrl = .ok (.playlistsBody items) →
      get_playlists (some tok) f = .ok (likedSongsPlaylist :: items)) ∧
    likedSongsPlaylist.id = "liked" ∧ likedSongsPlaylist.name = "Liked Songs" ∧
    (∀ tok (f : Fetch) items, f savedTracksUrl = .ok (.likedBody items) →
      get_playlist_tracks (some tok) f "liked" = .ok (items.map (fun item => item.track))) ∧
    (∀ tok (f g : Fetch), f savedTracksUrl = g savedTracksUrl →
      get_playlist_tracks (some tok) f "liked" = get_playlist_tracks (some tok) g "liked") := by
  refine ⟨?_, ?_, rfl, rfl, ?_, ?_⟩
  · intro tok f l h
    cases tok with
    | none => simp [get_playlists] at h
    | some t =>
      unfold get_playlists at h
      cases hf : f playlistsUrl with
      | error e => rw [hf] at h; cases h
      | ok body =>
        rw [hf] at h
        cases body <;> simp_all
        rw [← h]
        rfl
  · intro tok f items h
    unfold get_playlists
    rw [h]
  · intro tok f items h
    unfold get_playlist_tracks
    rw [if_pos rfl, h]
  · intro tok f g h
    unfold get_playlist_tracks
    rw [if_pos rfl, if_pos rfl, h]

/-- C10 witness. -/
theorem C10_witness :
    (fun _ => .ok (.playlistsBody []) : Fetch) playlistsUrl = .ok (.playlistsBody []) ∧
      get_playlists (some "tok") (fun _ => .ok (.playlistsBody [])) =
        .ok [likedSongsPlaylist] ∧
      (fun _ => .ok (.likedBody []) : Fetch) savedTracksUrl = .ok (.likedBody []) ∧
      get_playlist_tracks (some "tok") (fun _ => .ok (.likedBody [])) "liked" = .ok [] :=
  ⟨rfl, C10_liked_songs.2.1 "tok" _ [] rfl, rfl,
    C10_liked_songs.2.2.2.2.1 "tok" _ [] rfl⟩

/-! ## Claim C2 — periodic refresh failure in the event loop -/

/-- C2 counterexample.  When the 600-second refresh fails, the tick does
not continue to the next iteration: `run` propagates the error (`?`),
ending the loop — the outcome is `fatal`, not `next`, so the Error phase
that was set is never rendered or dismissed. -/
theorem C2_counterexample :
    run_tick app_ready envRefreshFail false true none =
      .fatal { app_ready with state := .Error ("Authentication failed: boom") } "boom" := by
  rfl

/-- C2 (amended).  A failing periodic refresh does set the phase to
`Error("Authentication failed: …")`, but the failure then terminates the
event loop: the tick outcome is `fatal` (the error propagates out of
`App::run`), not a transition to a subsequent tick. -/
theorem C2_refresh_failure_terminates_loop (a : App) (env : Env) (e2 : Bool)
    (key : Option KeyEvent) (e : String)
    (hq : a.should_quit = false) (hr : env.refresh = .error e) :
    ∃ a', run_tick a env e2 true key = .fatal a' e ∧
      a'.state = .Error ("Authentication failed: " ++ e) := by
  unfold run_tick app_refresh_access_token
  rw [hq, hr]
  simp only [Bool.false_eq_true, if_false, if_true]
  exact ⟨_, rfl, rfl⟩

/-- C2 witness. -/
theorem C2_witness :
    app_ready.should_quit = false ∧ envRefreshFail.refresh = .error "boom" ∧
      ∃ a', run_tick app_ready envRefreshFail true true (some ⟨.enter, false⟩) =
          .fatal a' "boom" ∧
        a'.state = .Error ("Authentication failed: " ++ "boom") :=
  ⟨rfl, rfl,
    C2_refresh_failure_terminates_loop app_ready envRefreshFail true
      (some ⟨.enter, false⟩) "boom" rfl rfl⟩

/-! ## Claim C3 — Enter while the search input is focused -/

/-- C3 counterexample.  In the reachable configuration (search overlay
visible) Enter with non-empty results moves focus to `Tracks` but does
NOT set the search selection to index 0: the selection stays `none`,
contradicting the claimed transition. -/
theorem C3_counterexample :
    handle_key_event appSearchEnter ⟨.enter, false⟩ envTest =
        ({ appSearchEnter with focused_pane := .Tracks }, [], .ok ()) ∧
      ({ appSearchEnter with focused_pane := .Tracks } : App).search_state = none := by
  exact ⟨rfl, rfl⟩

/-- C3 (amended).  With focus on the search input, no overlay popup and a
non-error phase: while the search overlay is visible (the reachable
configuration), Enter with non-empty results moves focus to `Tracks` and
leaves the result selection unchanged (stated here for the
selection-cleared state a search leaves behind; nothing else changes and
no remote call is made), and with empty results nothing changes at all.
Only in the overlay-hidden branch (dead code: `SearchInput` focus is
reachable only with the overlay shown) does Enter also select index 0. -/
theorem C3_enter_in_search (a : App) (env : Env) (b : Bool)
    (hstate : a.state.isError = false)
    (hhelp : a.show_help = false) (hpb : a.show_playback_controls = false)
    (hfocus : a.focused_pane = .SearchInput) :
    (a.show_search = true → a.search_state = none →
      (a.search_results ≠ [] →
        handle_key_event a ⟨.enter, b⟩ env =
          ({ a with focused_pane := .Tracks }, [], .ok ())) ∧
      (a.search_results = [] →
        handle_key_event a ⟨.enter, b⟩ env = (a, [], .ok ()))) ∧
    (a.show_search = false →
      (a.search_results ≠ [] →
        handle_key_event a ⟨.enter, b⟩ env =
          ({ a with focused_pane := .Tracks, search_state := some 0 }, [], .ok ())) ∧
      (a.search_results = [] →
        handle_key_event a ⟨.enter, b⟩ env = (a, [], .ok ()))) := by
  cases hs : a.state with
  | Error m => rw [hs] at hstate; simp [AppState.isError] at hstate
  | _ =>
    all_goals (
      constructor <;> intro hss <;>
        [intro hsel; skip] <;>
        constructor <;> intro hres <;>
        simp_all [handle_key_event, handle_search_mode_key, post_search_enter,
          handle_main_key, main_enter, List.isEmpty_iff])

/-- C3 witness. -/
theorem C3_witness :
    appSearchEnter.state.isError = false ∧ appSearchEnter.show_search = true ∧
      appSearchEnter.search_state = none ∧ appSearchEnter.search_results ≠ [] ∧
      handle_key_event appSearchEnter ⟨.enter, true⟩ envTest =
        ({ appSearchEnter with focused_pane := .Tracks }, [], .ok ()) :=
  ⟨rfl, rfl, rfl, by decide,
    ((C3_enter_in_search appSearchEnter envTest true rfl rfl rfl rfl).1 rfl rfl).1
      (by decide)⟩

/-! ## Claim C4 — Tab focus cycling -/

/-- C4 counterexample.  With the search overlay visible and `Tracks`
focused, Tab does NOT move focus to `SearchInput`: the Tab arm lives only
in the overlay-hidden branch of the dispatcher, so the key is a complete
no-op and focus stays on `Tracks`. -/
theorem C4_counterexample :
    handle_key_event appTabSearch ⟨.tab, false⟩ envTest = (appTabSearch, [], .ok ()) ∧
      appTabSearch.focused_pane = .Tracks := by
  exact ⟨rfl, rfl⟩

/-- C4 (amended).  Outside overlays and outside the Error phase, Tab is
handled only while the search overlay is hidden, and there it maps
`Playlists → Tracks`, `Tracks → Playlists` (the `SearchInput` target is
dead code, since the guard reads `show_search` inside the branch where it
is false), and `SearchInput → Playlists`; while the search overlay is
visible Tab is ignored entirely. -/
theorem C4_tab_cycle (a : App) (env : Env) (b : Bool)
    (hstate : a.state.isError = false)
    (hhelp : a.show_help = false) (hpb : a.show_playback_controls = false) :
    (a.show_search = false →
      handle_key_event a ⟨.tab, b⟩ env =
        ({ a with focused_pane :=
             match a.focused_pane with
             | .Playlists => .Tracks
             | .Tracks => .Playlists
             | .SearchInput => .Playlists }, [], .ok ())) ∧
    (a.show_search = true → handle_key_event a ⟨.tab, b⟩ env = (a, [], .ok ())) := by
  cases hs : a.state with
  | Error m => rw [hs] at hstate; simp [AppState.isError] at hstate
  | _ =>
    all_goals (
      constructor <;> intro hss <;>
        simp_all [handle_key_event, handle_search_mode_key, post_search_enter,
          handle_main_key])

/-- C4 witness. -/
theorem C4_witness :
    app_ready.state.isError = false ∧ app_ready.show_search = false ∧
      handle_key_event app_ready ⟨.tab, false⟩ envTest =
        ({ app_ready with focused_pane := .Tracks }, [], .ok ()) :=
  ⟨rfl, rfl, (C4_tab_cycle app_ready envTest false rfl rfl rfl).1 rfl⟩

/-! ## Claim C7 — debounced search dispatch -/

theorem check_pending_search_none (a : App) (env : Env)
    (h : a.last_search_time = none) : check_pending_search a env = (a, none) := by
  unfold check_pending_search
  rw [h]

theorem push_isEmpty_false (s : String) (c : Char) : (s.push c).isEmpty = false := by
  rw [Bool.eq_false_iff]
  intro h
  rw [String.isEmpty_iff] at h
  have hd := congrArg String.data h
  simp [String.push] at hd

theorem play_track_at_fields (a : App) (env : Env) (uri : String) :
    (play_track_at a env uri).1.last_search_time = a.last_search_time ∧
      (play_track_at a env uri).1.search_input = a.search_input ∧
      (play_track_at a env uri).1.show_search = a.show_search := by
  unfold play_track_at
  split <;> simp

theorem add_current_track_to_queue_fields (a : App) (env : Env) :
    (add_current_track_to_queue a env).1.last_search_time = a.last_search_time ∧
      (add_current_track_to_queue a env).1.search_input = a.search_input ∧
      (add_current_track_to_queue a env).1.show_search = a.show_search := by
  unfold add_current_track_to_queue update_queue get_display_tracks
  dsimp only
  repeat' split
  all_goals simp_all

theorem add_current_track_to_queue_checked_fields (a : App) (env : Env) :
    (add_current_track_to_queue_checked a env).1.last_search_time = a.last_search_time ∧
      (add_current_track_to_queue_checked a env).1.search_input = a.search_input ∧
      (add_current_track_to_queue_checked a env).1.show_search = a.show_search := by
  unfold add_current_track_to_queue_checked
  rcases hq : add_current_track_to_queue a env with ⟨a1, effs, r⟩
  rcases add_current_track_to_queue_fields a env with ⟨h1, h2, h3⟩
  rw [hq] at h1 h2 h3
  cases r <;> simp_all

theorem post_search_enter_fields (a : App) (k : KeyEvent) (env : Env) :
    (post_search_enter a k env).1.last_search_time = a.last_search_time ∧
      (post_search_enter a k env).1.search_input = a.search_input ∧
      (post_search_enter a k env).1.show_search = a.show_search := by
  unfold post_search_enter
  try dsimp only
  repeat' split
  all_goals first
    | exact play_track_at_fields _ _ _
    | simp

theorem handle_playback_controls_key_fields (a : App) (k : KeyEvent) (env : Env) :
    (handle_playback_controls_key a k env).1.last_search_time = a.last_search_time ∧
      (handle_playback_controls_key a k env).1.search_input = a.search_input ∧
      (handle_playback_controls_key a k env).1.show_search = a.show_search := by
  rcases k with ⟨code, ctrl⟩
  unfold handle_playback_controls_key
  cases code
  all_goals try dsimp only
  all_goals repeat' split
  all_goals simp_all

theorem load_playlist_tracks_last (a : App) (env : Env) (i : Nat) :
    (load_playlist_tracks a env i).1.last_search_time = a.last_search_time := by
  unfold load_playlist_tracks
  try dsimp only
  repeat' split
  all_goals simp_all

theorem main_nav_up_last (a : App) (env : Env) :
    (main_nav_up a env).1.last_search_time = a.last_search_time := by
  unfold main_nav_up
  dsimp only
  repeat' split
  all_goals simp_all [load_playlist_tracks_last]

theorem main_nav_down_last (a : App) (env : Env) :
    (main_nav_down a env).1.last_search_time = a.last_search_time := by
  unfold main_nav_down
  dsimp only
  repeat' split
  all_goals simp_all [load_playlist_tracks_last]

theorem main_enter_last (a : App) (env : Env) :
    (main_enter a env).1.last_search_time = a.last_search_time := by
  unfold main_enter play_track_at
  dsimp only
  repeat' split
  all_goals simp_all

theorem handle_main_key_last (a : App) (k : KeyEvent) (env : Env) :
    (handle_main_key a k env).1.last_search_time = a.last_search_time := by
  rcases k with ⟨code, ctrl⟩
  unfold handle_main_key
  cases code
  all_goals try dsimp only
  all_goals repeat' split
  all_goals
    first
    | rfl
    | exact main_nav_up_last a env
    | exact main_nav_down_last a env
    | exact main_enter_last a env
    | (rcases hq : add_current_track_to_queue_checked a env with ⟨a1, e1⟩
       rcases add_current_track_to_queue_checked_fields a env with ⟨h1, h2, h3⟩
       rw [hq] at h1
       simp_all)

theorem handle_search_mode_inv (a : App) (k : KeyEvent) (env : Env)
    (hss : a.show_search = true) (hinv : PendingInv a) :
    PendingInv (handle_search_mode_key a k env).1 := by
  rcases k with ⟨code, ctrl⟩
  unfold PendingInv at *
  unfold handle_search_mode_key
  cases code
  all_goals try dsimp only
  all_goals repeat' split
  all_goals solve
    | (intro h; exact absurd rfl h)
    | (intro h; exact hinv h)
    | (intro h; exact ⟨push_isEmpty_false _ _, hss⟩)
    | (intro h; exact ⟨Bool.eq_false_iff.mpr (by assumption), hss⟩)
    | (intro h
       rcases add_current_track_to_queue_checked_fields a env with ⟨h1, h2, h3⟩
       rw [h1] at h
       rw [h2, h3]
       exact ⟨(hinv h).1, hss⟩)

/-- Preservation of the pending-search invariant by the key handler: every
state reachable by key events from a state satisfying it (such as the
initial state, whose pending timestamp is unset) still satisfies it. -/
theorem handle_key_event_pending_inv (a : App) (k : KeyEvent) (env : Env)
    (hinv : PendingInv a) : PendingInv (handle_key_event a k env).1 := by
  unfold handle_key_event
  split
  · intro h; exact hinv h
  · split
    · split <;> (intro h; exact hinv h)
    · split
      · rcases hpb : handle_playback_controls_key a k env with ⟨a1, e1⟩
        dsimp only
        rcases handle_playback_controls_key_fields a k env with ⟨h1, h2, h3⟩
        rw [hpb] at h1 h2 h3
        dsimp only at h1 h2 h3
        intro h
        rw [h1] at h
        rw [h2, h3]
        exact hinv h
      · split
        · rcases hsm : handle_search_mode_key a k env with ⟨a1, e1⟩
          dsimp only
          have hi1 : PendingInv a1 := by
            have := handle_search_mode_inv a k env (by simp_all) hinv
            rwa [hsm] at this
          rcases hpe : post_search_enter a1 k env with ⟨a2, e2⟩
          dsimp only
          rcases post_search_enter_fields a1 k env with ⟨h1, h2, h3⟩
          rw [hpe] at h1 h2 h3
          dsimp only at h1 h2 h3
          intro h
          rw [h1] at h
          rw [h2, h3]
          exact hi1 h
        · have hss : a.show_search = false := by simp_all
          have hl : a.last_search_time = none := by
            by_contra hne
            have := (hinv hne).2
            rw [hss] at this
            cases this
          rcases hmk : handle_main_key a k env with ⟨a1, e1, r⟩
          have h1 : a1.last_search_time = none := by
            have := handle_main_key_last a k env
            rw [hmk] at this
            dsimp only at this
            rw [this, hl]
          cases r with
          | error e =>
            dsimp only
            intro h
            exact absurd h1 h
          | ok u =>
            dsimp only
            rcases hpe : post_search_enter a1 k env with ⟨a2, e2⟩
            dsimp only
            rcases post_search_enter_fields a1 k env with ⟨g1, g2, g3⟩
            rw [hpe] at g1 g2 g3
            dsimp only at g1 g2 g3
            intro h
            rw [g1, h1] at h
            exact absurd rfl h

/-- C7.  On a tick where a pending timestamp of age ≥ the 500 ms debounce
exists and the query is non-empty (the invariant `PendingInv`, preserved
by every key event, guarantees non-emptiness whenever a timestamp is
pending), exactly one search is dispatched carrying the current query
text; the timestamp is cleared whether the request succeeds or fails; on
success the results are replaced and the selection cleared to unset; on
failure only the timestamp changes.  A tick with no pending timestamp, or
one younger than the debounce, dispatches nothing — in particular the
tick after a fired one dispatches nothing, so at most one search fires
per quiet period. -/
theorem C7_debounce_dispatch :
    (∀ (a : App) (env : Env) (t : Nat), a.last_search_time = some t →
      env.now - t ≥ a.search_debounce_ms → a.search_input.isEmpty = false →
      (check_pending_search a env).2 = some a.search_input ∧
      (check_pending_search a env).1.last_search_time = none ∧
      (∀ results, env.search a.search_input = .ok results →
        (check_pending_search a env).1 =
          { a with last_search_time := none, search_results := results,
                   search_state := none }) ∧
      (∀ e, env.search a.search_input = .error e →
        (check_pending_search a env).1 = { a with last_search_time := none }) ∧
      (∀ env2 : Env, check_pending_search (check_pending_search a env).1 env2 =
        ((check_pending_search a env).1, none))) ∧
    (∀ (a : App) (env : Env), a.last_search_time = none →
      check_pending_search a env = (a, none)) ∧
    (∀ (a : App) (env : Env) (t : Nat), a.last_search_time = some t →
      env.now - t < a.search_debounce_ms → check_pending_search a env = (a, none)) ∧
    (∀ (a : App) (k : KeyEvent) (env : Env), PendingInv a →
      PendingInv (handle_key_event a k env).1) := by
  refine ⟨?_, ?_, ?_, handle_key_event_pending_inv⟩
  · intro a env t ht hage hne
    have hfire : check_pending_search a env =
        (match env.search a.search_input with
         | .ok results =>
             ({ a with last_search_time := none, search_results := results,
                       search_state := none }, some a.search_input)
         | .error _ => ({ a with last_search_time := none }, some a.search_input)) := by
      unfold check_pending_search
      rw [ht]
      dsimp only
      rw [if_pos hage, hne]
      simp only [Bool.false_eq_true, not_false_eq_true, if_true]
    refine ⟨?_, ?_, ?_, ?_, ?_⟩
    · rw [hfire]; cases env.search a.search_input <;> simp
    · rw [hfire]; cases env.search a.search_input <;> simp
    · intro results hr; rw [hfire, hr]
    · intro e hr; rw [hfire, hr]
    · intro env2
      have hnone : (check_pending_search a env).1.last_search_time = none := by
        rw [hfire]; cases env.search a.search_input <;> simp
      exact check_pending_search_none _ env2 hnone
  · exact check_pending_search_none
  · intro a env t ht hlt
    unfold check_pending_search
    rw [ht]
    dsimp only
    rw [if_neg (by omega)]

/-- C7 witness. -/
theorem C7_witness :
    appPendingSearch.last_search_time = some 0 ∧
      envTest.now - 0 ≥ appPendingSearch.search_debounce_ms ∧
      appPendingSearch.search_input.isEmpty = false ∧
      (check_pending_search appPendingSearch envTest).2 = some "radio" :=
  ⟨rfl, by decide, rfl,
    (C7_debounce_dispatch.1 appPendingSearch envTest 0 rfl (by decide) rfl).1⟩

/-! ## Claim C6 — bounded, non-wrapping navigation -/

theorem authLen_congr (a b : App) (hp : b.focused_pane = a.focused_pane)
    (hss : b.show_search = a.show_search) (h1 : b.playlists = a.playlists)
    (h2 : b.current_tracks = a.current_tracks)
    (h3 : b.search_results = a.search_results) : authLen b = authLen a := by
  unfold authLen
  rw [hp, hss, h1, h2, h3]

theorem authSel_congr (a b : App) (hp : b.focused_pane = a.focused_pane)
    (hss : b.show_search = a.show_search) (h1 : b.playlists_state = a.playlists_state)
    (h2 : b.tracks_state = a.tracks_state) (h3 : b.search_state = a.search_state) :
    authSel b = authSel a := by
  unfold authSel
  rw [hp, hss, h1, h2, h3]

theorem NavFrame.authLen_eq {a b : App} (h : NavFrame a b) : authLen b = authLen a :=
  authLen_congr a b h.1 h.2.1 h.2.2.1 h.2.2.2.1 h.2.2.2.2.1

theorem NavFrame.authSel_eq {a b : App} (h : NavFrame a b) : authSel b = authSel a :=
  authSel_congr a b h.1 h.2.1 h.2.2.2.2.2.1 h.2.2.2.2.2.2.1 h.2.2.2.2.2.2.2

theorem handle_playback_controls_key_nav_frame (a : App) (k : KeyEvent) (env : Env) :
    NavFrame a (handle_playback_controls_key a k env).1 := by
  rcases k with ⟨code, ctrl⟩
  unfold NavFrame handle_playback_controls_key
  cases code
  all_goals try dsimp only
  all_goals repeat' split
  all_goals simp_all

theorem play_track_at_nav_frame (a : App) (env : Env) (uri : String) :
    NavFrame a (play_track_at a env uri).1 := by
  unfold NavFrame play_track_at
  split <;> simp

theorem post_search_enter_nav_frame (a : App) (k : KeyEvent) (env : Env) :
    NavFrame a (post_search_enter a k env).1 := by
  unfold post_search_enter
  try dsimp only
  repeat' split
  all_goals first
    | exact play_track_at_nav_frame _ _ _
    | (unfold NavFrame; simp)

theorem load_playlist_tracks_nav_frame (a : App) (env : Env) (i : Nat) :
    (load_playlist_tracks a env i).1.focused_pane = a.focused_pane ∧
      (load_playlist_tracks a env i).1.show_search = a.show_search ∧
      (load_playlist_tracks a env i).1.playlists = a.playlists ∧
      (load_playlist_tracks a env i).1.search_results = a.search_results ∧
      (load_playlist_tracks a env i).1.playlists_state = a.playlists_state ∧
      (load_playlist_tracks a env i).1.search_state = a.search_state := by
  unfold load_playlist_tracks
  try dsimp only
  repeat' split
  all_goals simp_all


theorem search_nav_up_body (a b : App) (hss : a.show_search = true)
    (hb : b = (if a.focused_pane = FocusedPane.Tracks ∧ ¬a.search_results.isEmpty then
        (if a.search_state.getD 0 > 0 then
          { a with search_state := some (a.search_state.getD 0 - 1) } else a) else a)) :
    authLen b = authLen a ∧
    (selInBounds (authLen a) (authSel a) → selInBounds (authLen a) (authSel b)) ∧
    (authLen a = 0 → authSel b = authSel a) ∧
    (authSel a = some 0 → authSel b = some 0) := by
  subst hb
  by_cases hc : a.focused_pane = FocusedPane.Tracks ∧ ¬a.search_results.isEmpty
  · rcases hc with ⟨hpane, hne⟩
    rw [if_pos ⟨hpane, hne⟩]
    cases hsel : a.search_state with
    | none => simp_all [authLen, authSel, selInBounds]
    | some j =>
      split_ifs with hj <;>
        simp_all [authLen, authSel, selInBounds, List.isEmpty_iff] <;>
        omega
  · rw [if_neg hc]
    exact ⟨rfl, fun h => h, fun _ => rfl, fun h => h⟩

theorem search_nav_down_body (a b : App) (hss : a.show_search = true)
    (hb : b = (if a.focused_pane = FocusedPane.Tracks ∧ ¬a.search_results.isEmpty then
        (if a.search_state.getD 0 < a.search_results.length - 1 then
          { a with search_state := some (a.search_state.getD 0 + 1) } else a) else a)) :
    authLen b = authLen a ∧
    (selInBounds (authLen a) (authSel a) → selInBounds (authLen a) (authSel b)) ∧
    (authLen a = 0 → authSel b = authSel a) ∧
    (authSel a = some (authLen a - 1) → authSel b = some (authLen a - 1)) := by
  subst hb
  by_cases hc : a.focused_pane = FocusedPane.Tracks ∧ ¬a.search_results.isEmpty
  · rcases hc with ⟨hpane, hne⟩
    rw [if_pos ⟨hpane, hne⟩]
    cases hsel : a.search_state with
    | none =>
      split_ifs with hj <;>
        simp_all [authLen, authSel, selInBounds, List.isEmpty_iff] <;>
        omega
    | some j =>
      split_ifs with hj <;>
        simp_all [authLen, authSel, selInBounds, List.isEmpty_iff] <;>
        omega
  · rw [if_neg hc]
    exact ⟨rfl, fun h => h, fun _ => rfl, fun h => h⟩


theorem load_playlist_tracks_auth_playlists (a : App) (env : Env) (i : Nat)
    (hpane : a.focused_pane = FocusedPane.Playlists) :
    authLen (load_playlist_tracks a env i).1 = a.playlists.length ∧
      authSel (load_playlist_tracks a env i).1 = a.playlists_state := by
  unfold load_playlist_tracks
  try dsimp only
  repeat' split
  all_goals simp_all [authLen, authSel]

theorem main_nav_up_auth (a : App) (env : Env) (hss : a.show_search = false) :
    authLen (main_nav_up a env).1 = authLen a ∧
    (selInBounds (authLen a) (authSel a) →
      selInBounds (authLen a) (authSel (main_nav_up a env).1)) ∧
    (authLen a = 0 → authSel (main_nav_up a env).1 = authSel a) ∧
    (authSel a = some 0 → authSel (main_nav_up a env).1 = some 0) := by
  unfold main_nav_up
  cases hpane : a.focused_pane with
  | Playlists =>
    dsimp only
    split_ifs with h1 h2
    · cases hsel : a.playlists_state <;>
        simp_all [authLen, authSel, selInBounds] <;> try omega
    · obtain ⟨hL, hS⟩ := load_playlist_tracks_auth_playlists
        { a with playlists_state := some (a.playlists_state.getD 0 - 1),
                 focused_pane := FocusedPane.Playlists } env
        (a.playlists_state.getD 0 - 1) rfl
      dsimp only at hL hS
      rw [hL, hS]
      unfold authLen authSel
      rw [hpane]
      cases hsel : a.playlists_state <;> simp_all [selInBounds] <;> try omega
    · cases hsel : a.playlists_state <;>
        simp_all [authLen, authSel, selInBounds] <;> try omega
  | Tracks =>
    dsimp only
    rw [hss]
    simp only [Bool.false_eq_true, false_and, if_false]
    split_ifs with h1 h2
    all_goals (cases hsel : a.tracks_state <;>
      simp_all [authLen, authSel, selInBounds] <;> try omega)
  | SearchInput =>
    dsimp only
    simp_all [authLen, authSel, selInBounds]


theorem main_nav_down_auth (a : App) (env : Env) (hss : a.show_search = false) :
    authLen (main_nav_down a env).1 = authLen a ∧
    (selInBounds (authLen a) (authSel a) →
      selInBounds (authLen a) (authSel (main_nav_down a env).1)) ∧
    (authLen a = 0 → authSel (main_nav_down a env).1 = authSel a) ∧
    (authSel a = some (authLen a - 1) →
      authSel (main_nav_down a env).1 = some (authLen a - 1)) := by
  unfold main_nav_down
  cases hpane : a.focused_pane with
  | Playlists =>
    dsimp only
    split_ifs with h1 h2
    · cases hsel : a.playlists_state <;>
        simp_all [authLen, authSel, selInBounds] <;> try omega
    · obtain ⟨hL, hS⟩ := load_playlist_tracks_auth_playlists
        { a with playlists_state := some (a.playlists_state.getD 0 + 1),
                 focused_pane := FocusedPane.Playlists } env
        (a.playlists_state.getD 0 + 1) rfl
      dsimp only at hL hS
      rw [hL, hS]
      unfold authLen authSel
      rw [hpane]
      cases hsel : a.playlists_state <;> simp_all [selInBounds] <;> try omega
    · cases hsel : a.playlists_state <;>
        simp_all [authLen, authSel, selInBounds] <;> try omega
  | Tracks =>
    dsimp only
    rw [hss]
    simp only [Bool.false_eq_true, false_and, if_false]
    split_ifs with h1 h2
    all_goals (cases hsel : a.tracks_state <;>
      simp_all [authLen, authSel, selInBounds] <;> try omega)
  | SearchInput =>
    dsimp only
    simp_all [authLen, authSel, selInBounds]

theorem search_mode_nav_auth (a : App) (k : KeyEvent) (env : Env)
    (hss : a.show_search = true) (hk : IsNavKey k) :
    authLen (handle_search_mode_key a k env).1 = authLen a ∧
    (selInBounds (authLen a) (authSel a) →
      selInBounds (authLen a) (authSel (handle_search_mode_key a k env).1)) ∧
    (authLen a = 0 → authSel (handle_search_mode_key a k env).1 = authSel a) ∧
    (IsUpKey k → authSel a = some 0 →
      authSel (handle_search_mode_key a k env).1 = some 0) ∧
    (IsDownKey k → authSel a = some (authLen a - 1) →
      authSel (handle_search_mode_key a k env).1 = some (authLen a - 1)) := by
  rcases k with ⟨code, ctrl⟩
  rcases hk with h | h | ⟨h | h, hc⟩
  · subst h
    have hstep : handle_search_mode_key a ⟨.up, ctrl⟩ env =
        ((if a.focused_pane = FocusedPane.Tracks ∧ ¬a.search_results.isEmpty then
            (if a.search_state.getD 0 > 0 then
              { a with search_state := some (a.search_state.getD 0 - 1) } else a)
          else a), []) := rfl
    rw [hstep]
    obtain ⟨g1, g2, g3, g4⟩ := search_nav_up_body a _ hss rfl
    refine ⟨g1, g2, g3, fun _ => g4, fun hdn => ?_⟩
    rcases hdn with h | ⟨h, _⟩ <;> cases h
  · subst h
    have hstep : handle_search_mode_key a ⟨.down, ctrl⟩ env =
        ((if a.focused_pane = FocusedPane.Tracks ∧ ¬a.search_results.isEmpty then
            (if a.search_state.getD 0 < a.search_results.length - 1 then
              { a with search_state := some (a.search_state.getD 0 + 1) } else a)
          else a), []) := rfl
    rw [hstep]
    obtain ⟨g1, g2, g3, g4⟩ := search_nav_down_body a _ hss rfl
    refine ⟨g1, g2, g3, fun hup => ?_, fun _ => g4⟩
    rcases hup with h | ⟨h, _⟩ <;> cases h
  · subst h hc
    have hstep : handle_search_mode_key a ⟨.char 'p', true⟩ env =
        ((if a.focused_pane = FocusedPane.Tracks ∧ ¬a.search_results.isEmpty then
            (if a.search_state.getD 0 > 0 then
              { a with search_state := some (a.search_state.getD 0 - 1) } else a)
          else a), []) := by
      unfold handle_search_mode_key
      simp
    rw [hstep]
    obtain ⟨g1, g2, g3, g4⟩ := search_nav_up_body a _ hss rfl
    refine ⟨g1, g2, g3, fun _ => g4, fun hdn => ?_⟩
    rcases hdn with h | ⟨h, _⟩ <;> simp at h
  · subst h hc
    have hstep : handle_search_mode_key a ⟨.char 'n', true⟩ env =
        ((if a.focused_pane = FocusedPane.Tracks ∧ ¬a.search_results.isEmpty then
            (if a.search_state.getD 0 < a.search_results.length - 1 then
              { a with search_state := some (a.search_state.getD 0 + 1) } else a)
          else a), []) := by
      unfold handle_search_mode_key
      simp
    rw [hstep]
    obtain ⟨g1, g2, g3, g4⟩ := search_nav_down_body a _ hss rfl
    refine ⟨g1, g2, g3, fun hup => ?_, fun _ => g4⟩
    rcases hup with h | ⟨h, _⟩ <;> simp at h


theorem nav_frame_auth (a b : App) (h : NavFrame a b) :
    authLen b = authLen a ∧
    (selInBounds (authLen a) (authSel a) → selInBounds (authLen a) (authSel b)) ∧
    (authLen a = 0 → authSel b = authSel a) ∧
    (authSel a = some 0 → authSel b = some 0) ∧
    (authSel a = some (authLen a - 1) → authSel b = some (authLen a - 1)) :=
  ⟨h.authLen_eq,
    fun hin => by rw [h.authSel_eq]; exact hin,
    fun _ => h.authSel_eq,
    fun h0 => by rw [h.authSel_eq]; exact h0,
    fun h0 => by rw [h.authSel_eq]; exact h0⟩

theorem nav_up_or_down (k : KeyEvent) (hk : IsNavKey k) : IsUpKey k ∨ IsDownKey k := by
  rcases hk with h | h | ⟨h | h, hc⟩
  · exact Or.inl (Or.inl h)
  · exact Or.inr (Or.inl h)
  · exact Or.inl (Or.inr ⟨h, hc⟩)
  · exact Or.inr (Or.inr ⟨h, hc⟩)

theorem up_not_down (k : KeyEvent) (hu : IsUpKey k) (hd : IsDownKey k) : False := by
  rcases hu with h | ⟨h, _⟩ <;> rcases hd with h2 | ⟨h2, _⟩ <;> rw [h] at h2 <;> simp_all

theorem handle_main_key_nav_up (a : App) (k : KeyEvent) (env : Env) (hu : IsUpKey k) :
    handle_main_key a k env = main_nav_up a env := by
  rcases k with ⟨code, ctrl⟩
  rcases hu with h | ⟨h, hc⟩
  · subst h; rfl
  · subst h hc
    unfold handle_main_key
    simp

theorem handle_main_key_nav_down (a : App) (k : KeyEvent) (env : Env) (hd : IsDownKey k) :
    handle_main_key a k env = main_nav_down a env := by
  rcases k with ⟨code, ctrl⟩
  rcases hd with h | ⟨h, hc⟩
  · subst h; rfl
  · subst h hc
    unfold handle_main_key
    simp


theorem handle_key_event_nav_auth (a : App) (k : KeyEvent) (env : Env)
    (hk : IsNavKey k) :
    authLen (handle_key_event a k env).1 = authLen a ∧
    (selInBounds (authLen a) (authSel a) →
      selInBounds (authLen a) (authSel (handle_key_event a k env).1)) ∧
    (authLen a = 0 → authSel (handle_key_event a k env).1 = authSel a) ∧
    (IsUpKey k → authSel a = some 0 →
      authSel (handle_key_event a k env).1 = some 0) ∧
    (IsDownKey k → authSel a = some (authLen a - 1) →
      authSel (handle_key_event a k env).1 = some (authLen a - 1)) := by
  unfold handle_key_event
  split
  · obtain ⟨t1, t2, t3, t4, t5⟩ :=
      nav_frame_auth a { a with state := .Ready } (by unfold NavFrame; simp)
    exact ⟨t1, t2, t3, fun _ => t4, fun _ => t5⟩
  · split
    · split
      · obtain ⟨t1, t2, t3, t4, t5⟩ :=
          nav_frame_auth a { a with show_help := false } (by unfold NavFrame; simp)
        exact ⟨t1, t2, t3, fun _ => t4, fun _ => t5⟩
      · obtain ⟨t1, t2, t3, t4, t5⟩ := nav_frame_auth a a (by unfold NavFrame; simp)
        exact ⟨t1, t2, t3, fun _ => t4, fun _ => t5⟩
    · split
      · rcases hpb : handle_playback_controls_key a k env with ⟨a1, e1⟩
        dsimp only
        have hfr := handle_playback_controls_key_nav_frame a k env
        rw [hpb] at hfr
        obtain ⟨t1, t2, t3, t4, t5⟩ := nav_frame_auth a a1 hfr
        exact ⟨t1, t2, t3, fun _ => t4, fun _ => t5⟩
      · split
        · rename_i hss
          rcases hsm : handle_search_mode_key a k env with ⟨a1, e1⟩
          dsimp only
          rcases hpe : post_search_enter a1 k env with ⟨a2, e2⟩
          dsimp only
          obtain ⟨s1, s2, s3, s4, s5⟩ := search_mode_nav_auth a k env hss hk
          rw [hsm] at s1 s2 s3 s4 s5
          dsimp only at s1 s2 s3 s4 s5
          have hfr : NavFrame a1 a2 := by
            have := post_search_enter_nav_frame a1 k env
            rwa [hpe] at this
          refine ⟨hfr.authLen_eq.trans s1, ?_, ?_, ?_, ?_⟩
          · intro hin; rw [hfr.authSel_eq]; exact s2 hin
          · intro h0; rw [hfr.authSel_eq]; exact s3 h0
          · intro hu h0; rw [hfr.authSel_eq]; exact s4 hu h0
          · intro hd h0; rw [hfr.authSel_eq]; exact s5 hd h0
        · rename_i hssn
          have hss : a.show_search = false := by
            simp only [Bool.not_eq_true] at hssn
            exact hssn
          rcases hmk : handle_main_key a k env with ⟨a1, e1, r⟩
          have hnav :
              authLen a1 = authLen a ∧
              (selInBounds (authLen a) (authSel a) →
                selInBounds (authLen a) (authSel a1)) ∧
              (authLen a = 0 → authSel a1 = authSel a) ∧
              (IsUpKey k → authSel a = some 0 → authSel a1 = some 0) ∧
              (IsDownKey k → authSel a = some (authLen a - 1) →
                authSel a1 = some (authLen a - 1)) := by
            rcases nav_up_or_down k hk with hu | hd
            · obtain ⟨m1, m2, m3, m4⟩ := main_nav_up_auth a env hss
              rw [← handle_main_key_nav_up a k env hu, hmk] at m1 m2 m3 m4
              dsimp only at m1 m2 m3 m4
              exact ⟨m1, m2, m3, fun _ => m4,
                fun hd => absurd hd (fun hd => up_not_down k hu hd)⟩
            · obtain ⟨m1, m2, m3, m4⟩ := main_nav_down_auth a env hss
              rw [← handle_main_key_nav_down a k env hd, hmk] at m1 m2 m3 m4
              dsimp only at m1 m2 m3 m4
              exact ⟨m1, m2, m3,
                fun hu => absurd hu (fun hu => up_not_down k hu hd),
                fun _ => m4⟩
          obtain ⟨m1, m2, m3, m4, m5⟩ := hnav
          cases r with
          | error e =>
            dsimp only
            exact ⟨m1, m2, m3, m4, m5⟩
          | ok u =>
            dsimp only
            rcases hpe : post_search_enter a1 k env with ⟨a2, e2⟩
            dsimp only
            have hfr : NavFrame a1 a2 := by
              have := post_search_enter_nav_frame a1 k env
              rwa [hpe] at this
            refine ⟨hfr.authLen_eq.trans m1, ?_, ?_, ?_, ?_⟩
            · intro hin; rw [hfr.authSel_eq]; exact m2 hin
            · intro h0; rw [hfr.authSel_eq]; exact m3 h0
            · intro hu h0; rw [hfr.authSel_eq]; exact m4 hu h0
            · intro hd h0; rw [hfr.authSel_eq]; exact m5 hd h0


theorem up_isNavKey (k : KeyEvent) (hu : IsUpKey k) : IsNavKey k := by
  rcases hu with h | ⟨h, hc⟩
  · exact Or.inl h
  · exact Or.inr (Or.inr ⟨Or.inl h, hc⟩)

theorem down_isNavKey (k : KeyEvent) (hd : IsDownKey k) : IsNavKey k := by
  rcases hd with h | ⟨h, hc⟩
  · exact Or.inr (Or.inl h)
  · exact Or.inr (Or.inr ⟨Or.inr h, hc⟩)

/-- C6.  For every sequence of navigation key events (arrows and Ctrl+P /
Ctrl+N) and every environment: the length of the authoritative list is
unchanged, a selection that starts within `[0, len-1]` (or unset) stays
within bounds, and when the authoritative list is empty the selection
never changes; moreover a single up-navigation at index 0, or a single
down-navigation at the last index, leaves the selection exactly where it
was (no wrap-around). -/
theorem C6_navigation_bounds :
    (∀ (env : Env) (ks : List KeyEvent), (∀ k ∈ ks, IsNavKey k) → ∀ a : App,
      authLen (applyKeys env a ks) = authLen a ∧
      (selInBounds (authLen a) (authSel a) →
        selInBounds (authLen a) (authSel (applyKeys env a ks))) ∧
      (authLen a = 0 → authSel (applyKeys env a ks) = authSel a)) ∧
    (∀ (env : Env) (k : KeyEvent) (a : App), IsUpKey k → authSel a = some 0 →
      authSel (handle_key_event a k env).1 = some 0) ∧
    (∀ (env : Env) (k : KeyEvent) (a : App), IsDownKey k →
      authSel a = some (authLen a - 1) →
      authSel (handle_key_event a k env).1 = some (authLen a - 1)) := by
  refine ⟨?_, ?_, ?_⟩
  · intro env ks
    induction ks with
    | nil => exact fun _ a => ⟨rfl, fun h => h, fun _ => rfl⟩
    | cons k ks ih =>
      intro hall a
      simp only [applyKeys]
      have hk : IsNavKey k := hall k (List.mem_cons_self k ks)
      have hall2 : ∀ k2 ∈ ks, IsNavKey k2 :=
        fun k2 h2 => hall k2 (List.mem_cons_of_mem k h2)
      obtain ⟨s1, s2, s3, _, _⟩ := handle_key_event_nav_auth a k env hk
      obtain ⟨i1, i2, i3⟩ := ih hall2 (handle_key_event a k env).1
      rw [s1] at i1 i2 i3
      refine ⟨i1, ?_, ?_⟩
      · intro hin
        exact i2 (s2 hin)
      · intro h0
        rw [i3 h0, s3 h0]
  · intro env k a hu h0
    exact (handle_key_event_nav_auth a k env (up_isNavKey k hu)).2.2.2.1 hu h0
  · intro env k a hd h0
    exact (handle_key_event_nav_auth a k env (down_isNavKey k hd)).2.2.2.2 hd h0

/-- C6 witness. -/
theorem C6_witness :
    (∀ k ∈ [(⟨.down, false⟩ : KeyEvent), ⟨.down, false⟩, ⟨.up, false⟩], IsNavKey k) ∧
      selInBounds (authLen appNav) (authSel appNav) ∧
      selInBounds (authLen appNav)
        (authSel (applyKeys envTest appNav
          [⟨.down, false⟩, ⟨.down, false⟩, ⟨.up, false⟩])) ∧
      authSel appTabSearch = some 0 ∧
      authSel (handle_key_event appTabSearch ⟨.up, false⟩ envTest).1 = some 0 :=
  ⟨by decide, by decide,
    (C6_navigation_bounds.1 envTest [⟨.down, false⟩, ⟨.down, false⟩, ⟨.up, false⟩]
      (by decide) appNav).2.1 (by decide),
    by decide,
    C6_navigation_bounds.2.1 envTest ⟨.up, false⟩ appTabSearch (Or.inl rfl) (by decide)⟩


theorem findSubstr_eq_none (pat s : List Char)
    (h : ∀ i, pat.isPrefixOf (s.drop i) = false) : findSubstr pat s = none := by
  induction s with
  | nil =>
    have h0 := h 0
    rw [List.drop_nil] at h0
    cases pat with
    | nil => simp [List.isPrefixOf] at h0
    | cons p ps => rfl
  | cons c rest ih =>
    have h0 := h 0
    rw [List.drop_zero] at h0
    unfold findSubstr
    rw [h0]
    simp only [Bool.false_eq_true, if_false]
    rw [ih (fun i => by simpa [List.drop_succ_cons] using h (i + 1))]
    rfl

theorem patC_not_prefix_seg (u : List Char) (hu : ' ' ∉ u) :
    ("GET /callback?".toList).isPrefixOf (u ++ " HTTP/1.1".toList) = false := by
  rw [Bool.eq_false_iff]
  intro h
  rw [List.isPrefixOf_iff_prefix] at h
  have hlen := h.length_le
  have hlu : ("GET /callback?".toList).length = 14 := rfl
  have hht : (" HTTP/1.1".toList).length = 9 := rfl
  rw [hlu, List.length_append, hht] at hlen
  have hu5 : 5 ≤ u.length := by omega
  have h3lt : (3 : Nat) < u.length := by omega
  have h3 := h.getElem (n := 3) (by rw [hlu]; omega)
  rw [List.getElem_append_left h3lt] at h3
  have hsp : u[3] = ' ' := by rw [← h3]; rfl
  exact hu (hsp ▸ List.getElem_mem h3lt)

theorem patC_not_prefix_qht (q : List Char) (hq : ' ' ∉ q) : ∀ j : Nat,
    ("GET /callback?".toList).isPrefixOf ((q ++ " HTTP/1.1".toList).drop j) = false := by
  induction q with
  | nil =>
    intro j
    rw [Bool.eq_false_iff]
    intro h
    rw [List.isPrefixOf_iff_prefix] at h
    have hlen := h.length_le
    have hlu : ("GET /callback?".toList).length = 14 := rfl
    have hht : (" HTTP/1.1".toList).length = 9 := rfl
    rw [hlu, List.length_drop] at hlen
    rw [List.nil_append] at hlen
    rw [hht] at hlen
    omega
  | cons c q ih =>
    intro j
    cases j with
    | zero =>
      rw [List.drop_zero]
      exact patC_not_prefix_seg (c :: q) hq
    | succ j =>
      rw [List.cons_append, List.drop_succ_cons]
      exact ih (fun hm => hq (List.mem_cons_of_mem c hm)) j

theorem findSubstr_patC_request (q : List Char) (hq : ' ' ∉ q) :
    findSubstr ("GET /callback?".toList)
      ("GET /?".toList ++ q ++ " HTTP/1.1".toList) = none := by
  apply findSubstr_eq_none
  have h2 : "GET /?".toList = ['G', 'E', 'T', ' ', '/', '?'] := rfl
  intro i
  match i with
  | 0 | 1 | 2 | 3 | 4 | 5 =>
    rw [h2]
    simp [List.isPrefixOf, List.drop]
  | i + 6 =>
    rw [List.append_assoc, h2]
    have hdrop : (['G', 'E', 'T', ' ', '/', '?'] ++ (q ++ " HTTP/1.1".toList)).drop (i + 6) =
        (q ++ " HTTP/1.1".toList).drop i := by
      simp [List.drop]
    rw [hdrop]
    exact patC_not_prefix_qht q hq i


theorem findSubstr_self (p : Char) (ps rest : List Char) :
    findSubstr (p :: ps) ((p :: ps) ++ rest) = some 0 := by
  rw [List.cons_append]
  unfold findSubstr
  rw [if_pos]
  rw [List.isPrefixOf_iff_prefix, ← List.cons_append]
  exact List.prefix_append _ _

theorem findSubstr_space (q : List Char) (hq : ' ' ∉ q) (rest : List Char) :
    findSubstr [' '] (q ++ ' ' :: rest) = some q.length := by
  induction q with
  | nil =>
    rw [List.nil_append]
    unfold findSubstr
    rw [if_pos (show ([' '].isPrefixOf (' ' :: rest)) = true by simp [List.isPrefixOf])]
    rfl
  | cons c q ih =>
    have hcne : c ≠ ' ' := fun hcc => hq (hcc ▸ List.mem_cons_self c q)
    rw [List.cons_append]
    unfold findSubstr
    have hpre : ([' '].isPrefixOf (c :: (q ++ ' ' :: rest))) = false := by
      simp [List.isPrefixOf, hcne]
      exact fun h => absurd h.symm hcne
    rw [hpre]
    simp only [Bool.false_eq_true, if_false]
    rw [ih (fun hm => hq (List.mem_cons_of_mem c hm))]
    rfl


theorem extract_code_request_shape (q : List Char) (hq : ' ' ∉ q) :
    extract_code_from_request ("GET /?".toList ++ q ++ " HTTP/1.1".toList) =
      lookupCode q := by
  unfold extract_code_from_request findCodeWithPattern
  rw [findSubstr_patC_request q hq]
  dsimp only
  rw [List.append_assoc]
  rw [show ("GET /?".toList) = 'G' :: ("ET /?".toList) from rfl]
  rw [findSubstr_self 'G' ("ET /?".toList) (q ++ " HTTP/1.1".toList)]
  dsimp only
  rw [List.drop_left' ((Nat.zero_add _).symm)]
  rw [show (" HTTP/1.1".toList) = ' ' :: ("HTTP/1.1".toList) from rfl]
  rw [findSubstr_space q hq]
  dsimp only
  rw [List.take_left' rfl]


/-- C9 counterexample.  The two patterns are searched anywhere in the raw
request text, not only in the request line: a request whose request line
is `POST /x HTTP/1.1` — which matches neither accepted shape — still has
a code (`"Z"`) extracted, because `GET /?code=Z ` occurs inside a header
field.  This contradicts the claim that no code is extracted from
requests not matching the two shapes. -/
theorem C9_counterexample :
    extract_code_from_request
        ("POST /x HTTP/1.1\r\nReferer: GET /?code=Z HTTP/1.1\r\n".toList) =
      some ("Z".toList) := by
  decide

/-- C9 (amended).  The request scenario extracts exactly `"ABC123"` (for
both the `/?` and `/callback?` forms); whenever a code is extracted the
static 200 OK HTML confirmation response is written to the connection; a
request in which neither `"GET /callback?"` nor `"GET /?"` occurs
anywhere yields no code; and for every space-free query string `q`, the
request `GET /?{q} HTTP/1.1` yields exactly the (URL-decoded) `code`
parameter of `q` — the patterns being searched anywhere in the raw
request text rather than only in the request line. -/
theorem C9_code_extraction :
    extract_code_from_request ("GET /?state=xyz&code=ABC123 HTTP/1.1".toList) =
        some ("ABC123".toList) ∧
    extract_code_from_request
        ("GET /callback?state=xyz&code=ABC123 HTTP/1.1".toList) =
      some ("ABC123".toList) ∧
    (∀ request : List Char,
      findSubstr ("GET /callback?".toList) request = none →
      findSubstr ("GET /?".toList) request = none →
      extract_code_from_request request = none) ∧
    (∀ (request code : List Char), extract_code_from_request request = some code →
      callback_server_step request = some (code, send_async_response_text)) ∧
    (∀ q : List Char, ' ' ∉ q →
      extract_code_from_request ("GET /?".toList ++ q ++ " HTTP/1.1".toList) =
        lookupCode q) := by
  refine ⟨by decide, by decide, ?_, ?_, extract_code_request_shape⟩
  · intro request h1 h2
    unfold extract_code_from_request findCodeWithPattern
    rw [h1, h2]
  · intro request code h
    unfold callback_server_step
    rw [h]
    rfl

/-- C9 witness. -/
theorem C9_witness :
    extract_code_from_request ("POST /settings HTTP/1.0".toList) = none ∧
      callback_server_step ("GET /?code=ZZZ ".toList) =
        some ("ZZZ".toList, send_async_response_text) ∧
      extract_code_from_request
          ("GET /?".toList ++ "a=1&code=Q7".toList ++ " HTTP/1.1".toList) =
        lookupCode ("a=1&code=Q7".toList) :=
  ⟨C9_code_extraction.2.2.1 _ (by decide) (by decide),
    C9_code_extraction.2.2.2.1 _ _ (by decide),
    C9_code_extraction.2.2.2.2 _ (by decide)⟩

end Spotitui










